import Mathlib

/-!
Verification development for the `jellyfin-suggested` playlist generator
(`src/jellyfin_suggested.py`).

The script is a single orchestration flow: it loads configuration from the
environment (`Config.from_env`), fetches watch history and library indexes from
a media server, queries a recommendation provider for similar titles
(`TMDbClient.get_similar`), aggregates the results into a ranked, deduplicated,
size-bounded candidate list (`PlaylistGenerator.process_user`), and writes the
list back as a playlist (`PlaylistGenerator.update_playlist`).

The shallow embedding below translates the pure decision logic of those
functions into Lean.  Network calls are modelled by passing their results (or
result-producing functions) as parameters: a library index becomes a function
`Nat → Option LibraryItem` (the Python dict keyed by TMDB id), the provider
becomes a function `Nat → List RawSimilar` giving the raw `results` payload for
a catalog id, and the media server's playlist reads become plain values.
Python floats (ratings) are modelled as rationals, since the code only ever
compares them.  Count-valued settings are modelled as naturals.
-/

namespace JellyfinSuggested

/-- The `Config` dataclass (src lines 23-35): endpoint, credentials and tunable
limits, with the source's default values. -/
structure Config where
  jellyfin_url : String
  jellyfin_api_key : String
  tmdb_api_key : String
  playlist_name : String := "Suggested For You"
  max_watched_items : Nat := 20
  max_similar_per_item : Nat := 5
  max_playlist_items : Nat := 50
  min_tmdb_rating : ℚ := 6
  min_tmdb_votes : Nat := 50
  request_timeout : Nat := 30
deriving DecidableEq

/-- Python's `str.rstrip('/')`: drop every trailing `/` character. -/
def rstripSlash (s : String) : String :=
  String.mk ((s.data.reverse.dropWhile (fun c => c = '/')).reverse)

/-- Python's `int(s)` on the decimal strings used for the count-valued
settings; a malformed string raises `ValueError`, modelled as `Except.error`. -/
def parseNat (s : String) : Except String Nat :=
  match s.toNat? with
  | some n => Except.ok n
  | none => Except.error ("invalid literal for int with base 10: " ++ s)

/-- Python's `float(s)` restricted to the plain decimal forms `d+` and `d+.d+`
used for `MIN_TMDB_RATING`; anything else is a `ValueError`. -/
def parseRat (s : String) : Except String ℚ :=
  match s.split (fun c => c = '.') with
  | [w] =>
    match w.toNat? with
    | some a => Except.ok ((a : ℚ))
    | none => Except.error ("could not convert string to float: " ++ s)
  | [w, f] =>
    match w.toNat?, f.toNat? with
    | some a, some b => Except.ok ((a : ℚ) + (b : ℚ) / ((10 : ℚ) ^ f.length))
    | _, _ => Except.error ("could not convert string to float: " ++ s)
  | _ => Except.error ("could not convert string to float: " ++ s)

/-- `Config.from_env` (src lines 37-61).  The environment is a partial map from
variable names to strings; `os.getenv(k, d)` is `(env k).getD d`.  As in the
source, the three mandatory values are read (with the URL's trailing slashes
stripped) and checked for Python truthiness (non-emptiness) before any of the
optional numeric settings is parsed; a failure anywhere is a `ValueError`,
modelled as `Except.error`. -/
def from_env (env : String → Option String) : Except String Config :=
  let jellyfin_url := rstripSlash ((env "JELLYFIN_URL").getD "")
  let jellyfin_api_key := (env "JELLYFIN_API_KEY").getD ""
  let tmdb_api_key := (env "TMDB_API_KEY").getD ""
  if jellyfin_url = "" ∨ jellyfin_api_key = "" ∨ tmdb_api_key = "" then
    Except.error ("Missing required environment variables. " ++
      "Please set JELLYFIN_URL, JELLYFIN_API_KEY, and TMDB_API_KEY")
  else
    (parseNat ((env "MAX_WATCHED_ITEMS").getD "20")).bind fun max_watched_items =>
    (parseNat ((env "MAX_SIMILAR_PER_ITEM").getD "5")).bind fun max_similar_per_item =>
    (parseNat ((env "MAX_PLAYLIST_ITEMS").getD "50")).bind fun max_playlist_items =>
    (parseRat ((env "MIN_TMDB_RATING").getD "6.0")).bind fun min_tmdb_rating =>
    (parseNat ((env "MIN_TMDB_VOTES").getD "50")).bind fun min_tmdb_votes =>
    (parseNat ((env "REQUEST_TIMEOUT").getD "30")).bind fun request_timeout =>
    Except.ok
      { jellyfin_url := jellyfin_url
        jellyfin_api_key := jellyfin_api_key
        tmdb_api_key := tmdb_api_key
        playlist_name := (env "PLAYLIST_NAME").getD "Suggested For You"
        max_watched_items := max_watched_items
        max_similar_per_item := max_similar_per_item
        max_playlist_items := max_playlist_items
        min_tmdb_rating := min_tmdb_rating
        min_tmdb_votes := min_tmdb_votes
        request_timeout := request_timeout }

/-- Outcome of `main`'s startup (src lines 370-387): `Config.from_env()` is
evaluated before the HTTP session or either client exists, so a `ValueError`
from it (missing mandatory configuration) is raised before any network
activity; `main` catches it and converts it to `SystemExit(1)`.  Only on
`proceed` does the run go on to open the session and make network calls. -/
inductive MainOutcome where
  | configError (exitCode : Nat)
  | proceed (config : Config)
deriving DecidableEq

/-- The startup path of `main` (src lines 377-384). -/
def mainStartup (env : String → Option String) : MainOutcome :=
  match from_env env with
  | Except.error _ => MainOutcome.configError 1
  | Except.ok cfg => MainOutcome.proceed cfg

/-- One entry of the provider's raw `results` payload, with the fields
`TMDbClient.get_similar` reads (src lines 200-207).  `title` stands for the
`title`-or-`name` string. -/
structure RawSimilar where
  id : Nat
  title : String
  vote_average : ℚ
  vote_count : Nat
deriving DecidableEq

/-- The dict `get_similar` appends to its `results` list (src lines 204-208):
`id`, `title`, `vote_average`. -/
structure SimilarResult where
  id : Nat
  title : String
  vote_average : ℚ
deriving DecidableEq

/-- `TMDbClient.get_similar` on a successful (HTTP 200) provider response
(src lines 196-209): iterate over `results[:max_similar_per_item]` — the cap
is a slice taken BEFORE the loop's quality test — keeping only entries whose
rating and vote count meet the configured minimums. -/
def tmdbGetSimilar (cfg : Config) (raw : List RawSimilar) : List SimilarResult :=
  (raw.take cfg.max_similar_per_item).foldl
    (fun results item =>
      if cfg.min_tmdb_rating ≤ item.vote_average ∧ cfg.min_tmdb_votes ≤ item.vote_count then
        results ++ [⟨item.id, item.title, item.vote_average⟩]
      else results)
    []

/-- The recommendation client as the specification describes it (§4.2):
"filtering happens before the result-count cap is applied, so the cap is
applied to the already-filtered, server-ordered list".  Written from the
spec's words, for comparison with `tmdbGetSimilar` (which is translated from
the source). -/
def tmdbGetSimilarSpec (cfg : Config) (raw : List RawSimilar) : List SimilarResult :=
  ((raw.filter fun item =>
      decide (cfg.min_tmdb_rating ≤ item.vote_average ∧
        cfg.min_tmdb_votes ≤ item.vote_count)).take cfg.max_similar_per_item).map
    fun item => ⟨item.id, item.title, item.vote_average⟩

/-- A value of the movie/series library index (src lines 101-119): the fields
of the Jellyfin item dict that the aggregator reads. -/
structure LibraryItem where
  Id : String
  Name : String
deriving DecidableEq

/-- A watched movie, or a resolved watched series' info dict: the aggregator
only reads its `ProviderIds.Tmdb` entry (src lines 273-281, 285, 301).
`tmdb = none` covers both a missing and a falsy (empty) provider id. -/
structure WatchedItem where
  tmdb : Option Nat
deriving DecidableEq

/-- A watched episode: the aggregator only reads its `SeriesId`
(src lines 257-264); `none` covers a missing or falsy value. -/
structure Episode where
  SeriesId : Option String
deriving DecidableEq

/-- The unique-series extraction loop of `process_user` (src lines 255-264):
walk the watched episodes, and for each first occurrence of a `SeriesId`
resolve it via `get_series_info` (modelled by `resolve`); the id is marked as
seen before resolution, so a failed resolution is not retried. -/
def extractUniqueSeries (resolve : String → Option WatchedItem) :
    List Episode → List String → List WatchedItem
  | [], _ => []
  | e :: es, seen =>
    match e.SeriesId with
    | none => extractUniqueSeries resolve es seen
    | some sid =>
      if sid ∈ seen then extractUniqueSeries resolve es seen
      else
        match resolve sid with
        | some info => info :: extractUniqueSeries resolve es (sid :: seen)
        | none => extractUniqueSeries resolve es (sid :: seen)

/-- The dict appended to `suggested_items` (src lines 292-297, 308-313). -/
structure Suggestion where
  Id : String
  Name : String
  Kind : String
  Score : ℚ
deriving DecidableEq

/-- The exclusion set `watched_tmdb_ids` (src lines 270-281): every TMDB id
present among the user's watched movies and resolved watched series.  The
Python value is a set; only membership is ever used, so a list is an
equivalent model. -/
def watchedTmdbIds (watched_movies unique_series : List WatchedItem) : List Nat :=
  watched_movies.filterMap WatchedItem.tmdb ++ unique_series.filterMap WatchedItem.tmdb

/-- The body of the inner `for s in similar` loop (src lines 288-297 and
304-313): accept `s` as a candidate only if its TMDB id is in the library
index, is not among the watched ids, and no candidate with the same
server-local `Id` is already in the working list. -/
def considerSimilar (watchedIds : List Nat) (lib : Nat → Option LibraryItem)
    (kind : String) (acc : List Suggestion) (s : SimilarResult) : List Suggestion :=
  match lib s.id with
  | some item =>
    if s.id ∉ watchedIds then
      if item.Id ∈ acc.map Suggestion.Id then acc
      else acc ++ [⟨item.Id, item.Name, kind, s.vote_average⟩]
    else acc
  | none => acc

/-- The inner `for s in similar` loop over one similarity response. -/
def addCandidates (watchedIds : List Nat) (lib : Nat → Option LibraryItem)
    (kind : String) (acc : List Suggestion) (sim : List SimilarResult) : List Suggestion :=
  sim.foldl (considerSimilar watchedIds lib kind) acc

/-- The body of the outer loop over one watched item (src lines 284-287,
300-303): a watched item without a TMDB id triggers no similarity query and
contributes nothing. -/
def considerWatched (cfg : Config) (watchedIds : List Nat)
    (lib : Nat → Option LibraryItem) (kind : String) (rawSim : Nat → List RawSimilar)
    (acc : List Suggestion) (w : WatchedItem) : List Suggestion :=
  match w.tmdb with
  | some t => addCandidates watchedIds lib kind acc (tmdbGetSimilar cfg (rawSim t))
  | none => acc

/-- One of the two symmetric similarity loops of `process_user`
(`for movie in watched_movies[:max_watched_items]`, src lines 284-297, and
its series counterpart, src lines 300-313). -/
def collectKind (cfg : Config) (watchedIds : List Nat)
    (lib : Nat → Option LibraryItem) (kind : String) (rawSim : Nat → List RawSimilar)
    (watched : List WatchedItem) (acc : List Suggestion) : List Suggestion :=
  (watched.take cfg.max_watched_items).foldl
    (considerWatched cfg watchedIds lib kind rawSim) acc

/-- The TMDB ids for which one of `process_user`'s similarity loops issues a
`get_similar` query (src lines 284-287 resp. 300-303): the present provider
ids of the first `max_watched_items` watched items. -/
def queriedTmdbIds (cfg : Config) (watched : List WatchedItem) : List Nat :=
  (watched.take cfg.max_watched_items).filterMap WatchedItem.tmdb

/-- The working `suggested_items` list as it stands after both similarity
loops of `process_user` (src lines 269-313): the movie loop runs first from
the empty list, the series loop appends to its result. -/
def collectSuggestions (cfg : Config) (watched_movies unique_series : List WatchedItem)
    (movie_library series_library : Nat → Option LibraryItem)
    (rawSimM rawSimS : Nat → List RawSimilar) : List Suggestion :=
  let watchedIds := watchedTmdbIds watched_movies unique_series
  collectKind cfg watchedIds series_library "Series" rawSimS unique_series
    (collectKind cfg watchedIds movie_library "Movie" rawSimM watched_movies [])

/-- The ordering used by `suggested_items.sort(key=lambda x: x['Score'],
reverse=True)` (src line 316): `a` may come before `b` when `b`'s score is at
most `a`'s. -/
def scoreGe (a b : Suggestion) : Prop := b.Score ≤ a.Score

instance : DecidableRel scoreGe := fun a b =>
  inferInstanceAs (Decidable (b.Score ≤ a.Score))

instance : IsTotal Suggestion scoreGe := ⟨fun a b => le_total b.Score a.Score⟩

instance : IsTrans Suggestion scoreGe := ⟨fun _ _ _ h1 h2 => le_trans h2 h1⟩

/-- Python's `list.sort(key=lambda x: x['Score'], reverse=True)` (src line
316) is a stable sort into non-ascending score order.  It is modelled as
insertion sort by the total relation `scoreGe`, which sorts by `scoreGe` and
is stable (the stability characterization is proved below:
`filter_score_sortByScoreDesc`). -/
def sortByScoreDesc (l : List Suggestion) : List Suggestion :=
  l.insertionSort scoreGe

/-- The suggestion list `process_user` ends up with (src lines 315-317):
the working list, stably sorted by score descending, truncated to
`max_playlist_items`. -/
def processUserSuggestions (cfg : Config) (watched_movies unique_series : List WatchedItem)
    (movie_library series_library : Nat → Option LibraryItem)
    (rawSimM rawSimS : Nat → List RawSimilar) : List Suggestion :=
  (sortByScoreDesc (collectSuggestions cfg watched_movies unique_series
      movie_library series_library rawSimM rawSimS)).take cfg.max_playlist_items

/-- A playlist as listed by `get_user_playlists`: `update_playlist` reads its
`Name` and `Id` (src lines 339-348). -/
structure PlaylistInfo where
  Id : String
  Name : String
deriving DecidableEq

/-- A current playlist entry as returned by `get_playlist_items`: the
underlying item `Id` and the server-assigned `PlaylistItemId` used for
removal (src lines 352-354). -/
structure PlaylistEntry where
  Id : String
  PlaylistItemId : String
deriving DecidableEq

/-- The three playlist write operations the synchronizer can issue
(src lines 135-149, 161-168, 170-177). -/
inductive PlaylistOp where
  | create (name : String) (itemIds : List String)
  | clear (playlistId : String) (entryIds : List String)
  | add (playlistId : String) (itemIds : List String)
deriving DecidableEq

/-- The write operations `update_playlist` issues (src lines 333-361): find
the first playlist whose name equals the configured name; if found, clear its
current entries when there are any and then — unconditionally, whatever the
clear call returned — append the new item ids; otherwise create the playlist.
`getEntries` models `get_playlist_items` for the found playlist. -/
def updatePlaylistOps (playlistName : String) (playlists : List PlaylistInfo)
    (getEntries : String → List PlaylistEntry) (itemIds : List String) : List PlaylistOp :=
  match playlists.find? (fun p => p.Name == playlistName) with
  | some p =>
    let current := getEntries p.Id
    (if current.isEmpty then []
     else [PlaylistOp.clear p.Id (current.map PlaylistEntry.PlaylistItemId)]) ++
      [PlaylistOp.add p.Id itemIds]
  | none => [PlaylistOp.create playlistName itemIds]

/-- All of `process_user` for one user (src lines 244-322): resolve the unique
watched series, compute the suggestion list, and issue playlist writes only
when the list is non-empty (src lines 321-322). -/
def processUser (cfg : Config) (watched_movies : List WatchedItem)
    (watched_episodes : List Episode) (resolve : String → Option WatchedItem)
    (movie_library series_library : Nat → Option LibraryItem)
    (rawSimM rawSimS : Nat → List RawSimilar)
    (playlists : List PlaylistInfo) (getEntries : String → List PlaylistEntry) :
    List Suggestion × List PlaylistOp :=
  let unique_series := extractUniqueSeries resolve watched_episodes []
  let sugg := processUserSuggestions cfg watched_movies unique_series
    movie_library series_library rawSimM rawSimS
  (sugg,
    if sugg.isEmpty then []
    else updatePlaylistOps cfg.playlist_name playlists getEntries (sugg.map Suggestion.Id))

/-- Modelled from the spec (§4.1, §6): the media server's side of the
synchronizer's write operations on the target playlist — the server itself is
an external collaborator, not code of this repository.  `clear` removes
exactly the targeted entries when the call succeeds and changes nothing when
it fails; `add` appends the given items (with server-assigned entry ids,
modelled by `newEntryId`) when it succeeds; `create` makes a fresh playlist
and does not touch the existing one.  `ok` is the success oracle for each
call. -/
def applyOp (ok : PlaylistOp → Bool) (newEntryId : String → String)
    (state : List PlaylistEntry) (op : PlaylistOp) : List PlaylistEntry :=
  match op with
  | PlaylistOp.clear _ entryIds =>
    if ok op then state.filter (fun e => decide (e.PlaylistItemId ∉ entryIds)) else state
  | PlaylistOp.add _ itemIds =>
    if ok op then state ++ itemIds.map (fun i => ⟨i, newEntryId i⟩) else state
  | PlaylistOp.create _ _ => state

/-- The state of the existing playlist after a sequence of write operations. -/
def applyOps (ok : PlaylistOp → Bool) (newEntryId : String → String)
    (state : List PlaylistEntry) (ops : List PlaylistOp) : List PlaylistEntry :=
  ops.foldl (applyOp ok newEntryId) state

end JellyfinSuggested

namespace JellyfinSuggested

/-! ### Characterization of the recommendation client -/

/-- The loop of `get_similar` is the quality filter applied to the capped
prefix of the raw results, projected to the returned fields. -/
lemma tmdbGetSimilar_eq (cfg : Config) (raw : List RawSimilar) :
    tmdbGetSimilar cfg raw =
      ((raw.take cfg.max_similar_per_item).filter fun r =>
          decide (cfg.min_tmdb_rating ≤ r.vote_average ∧
            cfg.min_tmdb_votes ≤ r.vote_count)).map
        fun r => ⟨r.id, r.title, r.vote_average⟩ := by
  unfold tmdbGetSimilar
  generalize raw.take cfg.max_similar_per_item = l
  suffices h : ∀ (l : List RawSimilar) (acc : List SimilarResult),
      l.foldl (fun results item =>
        if cfg.min_tmdb_rating ≤ item.vote_average ∧
            cfg.min_tmdb_votes ≤ item.vote_count then
          results ++ [⟨item.id, item.title, item.vote_average⟩]
        else results) acc =
      acc ++ (l.filter fun r =>
          decide (cfg.min_tmdb_rating ≤ r.vote_average ∧
            cfg.min_tmdb_votes ≤ r.vote_count)).map
        (fun r => ⟨r.id, r.title, r.vote_average⟩) by
    simpa using h l []
  intro l
  induction l with
  | nil => intro acc; simp
  | cons x xs ih =>
    intro acc
    by_cases hx : cfg.min_tmdb_rating ≤ x.vote_average ∧
        cfg.min_tmdb_votes ≤ x.vote_count
    · simp [List.foldl_cons, List.filter_cons, hx, ih]
    · simp [List.foldl_cons, List.filter_cons, hx, ih]

/-- Membership in a `get_similar` response: every returned entry is the
projection of a raw entry that lies in the capped prefix and passes both
quality thresholds. -/
lemma mem_tmdbGetSimilar {cfg : Config} {raw : List RawSimilar} {s : SimilarResult}
    (h : s ∈ tmdbGetSimilar cfg raw) :
    ∃ r ∈ raw, cfg.min_tmdb_rating ≤ r.vote_average ∧
      cfg.min_tmdb_votes ≤ r.vote_count ∧ s = ⟨r.id, r.title, r.vote_average⟩ := by
  rw [tmdbGetSimilar_eq] at h
  rcases List.mem_map.mp h with ⟨r, hr, hs⟩
  rcases List.mem_filter.mp hr with ⟨hrt, hq⟩
  refine ⟨r, (List.take_sublist _ _).subset hrt, ?_, ?_, hs.symm⟩
  · exact (of_decide_eq_true hq).1
  · exact (of_decide_eq_true hq).2

/-! ### Claim C1 (corrected) -/

/-- A configuration keeping at most one similar result per watched item, with
the default quality thresholds. -/
def cexConfig : Config :=
  { jellyfin_url := "j", jellyfin_api_key := "k", tmdb_api_key := "t",
    max_similar_per_item := 1 }

/-- A provider response whose first entry fails the rating threshold and whose
second entry passes both thresholds. -/
def cexRaw : List RawSimilar := [⟨2, "Low", 5, 200⟩, ⟨1, "Good", 8, 200⟩]

/-- C1 counterexample: the claim says the quality filter runs before the
max-similar-per-item cap, i.e. `get_similar` returns the first up-to-cap
elements of the already-filtered list (`tmdbGetSimilarSpec`).  With cap 1 and
a low-rated first result, the code (`tmdbGetSimilar`, which slices
`results[:max_similar_per_item]` BEFORE filtering, src line 200) returns
nothing, while the claimed behavior would return the qualifying second
result: the low-rated early item crowds the qualifying later item out of the
cap. -/
theorem get_similar_filter_order_cex :
    tmdbGetSimilar cexConfig cexRaw = [] ∧
    tmdbGetSimilarSpec cexConfig cexRaw = [⟨1, "Good", 8⟩] ∧
    tmdbGetSimilar cexConfig cexRaw ≠ tmdbGetSimilarSpec cexConfig cexRaw := by
  refine ⟨by decide, by decide, by decide⟩

/-- C1 amended: for every successful provider response, the
max-similar-per-item cap is applied to the provider's full, provider-ordered
result list first, and the rating/vote-count quality filter is applied to the
capped prefix; the returned sequence equals the qualifying elements of the
first up-to-cap raw results, in provider order (so a low-rated item early in
the provider's list can crowd a qualifying later item out of the cap). -/
theorem get_similar_cap_then_filter (cfg : Config) (raw : List RawSimilar) :
    tmdbGetSimilar cfg raw =
      ((raw.take cfg.max_similar_per_item).filter fun r =>
          decide (cfg.min_tmdb_rating ≤ r.vote_average ∧
            cfg.min_tmdb_votes ≤ r.vote_count)).map
        fun r => ⟨r.id, r.title, r.vote_average⟩ :=
  tmdbGetSimilar_eq cfg raw

/-! ### Claim C5 -/

/-- C5: for every configuration, watch history, library index and provider
behavior, the final suggestion list of `process_user` has length at most the
configured maximum playlist size (src line 317 truncates with
`[:max_playlist_items]`). -/
theorem suggestions_length_le_max (cfg : Config)
    (mov ser : List WatchedItem) (mlib slib : Nat → Option LibraryItem)
    (rawM rawS : Nat → List RawSimilar) :
    (processUserSuggestions cfg mov ser mlib slib rawM rawS).length ≤
      cfg.max_playlist_items := by
  unfold processUserSuggestions
  exact List.length_take_le _ _

/-! ### Claim C7 -/

/-- C7: a user with no watched movies and no watched episodes gets an empty
suggestion list, and `process_user` performs no playlist write operation at
all (src lines 321-322 guard `update_playlist` behind a non-empty list), for
every configuration, resolver, library index, provider behavior and
server-side playlist state. -/
theorem empty_history_no_suggestions_no_writes (cfg : Config)
    (resolve : String → Option WatchedItem)
    (mlib slib : Nat → Option LibraryItem) (rawM rawS : Nat → List RawSimilar)
    (playlists : List PlaylistInfo) (getEntries : String → List PlaylistEntry) :
    processUser cfg [] [] resolve mlib slib rawM rawS playlists getEntries =
      ([], []) := by
  simp [processUser, processUserSuggestions, collectSuggestions, collectKind,
    extractUniqueSeries, watchedTmdbIds, sortByScoreDesc]

/-! ### Claim C8 -/

/-- C8: if any of the three mandatory configuration values is absent from the
environment, `Config.from_env` raises the configuration error, and `main`
(which evaluates `from_env` before opening the HTTP session or constructing
either client, hence before any network activity) exits with status 1. -/
theorem missing_mandatory_config_aborts (env : String → Option String)
    (h : env "JELLYFIN_URL" = none ∨ env "JELLYFIN_API_KEY" = none ∨
      env "TMDB_API_KEY" = none) :
    (∃ msg, from_env env = Except.error msg) ∧
      mainStartup env = MainOutcome.configError 1 := by
  have hcond : rstripSlash ((env "JELLYFIN_URL").getD "") = "" ∨
      (env "JELLYFIN_API_KEY").getD "" = "" ∨ (env "TMDB_API_KEY").getD "" = "" := by
    rcases h with h | h | h
    · left; rw [h]; decide
    · right; left; rw [h]; rfl
    · right; right; rw [h]; rfl
  have herr : from_env env = Except.error ("Missing required environment variables. " ++
      "Please set JELLYFIN_URL, JELLYFIN_API_KEY, and TMDB_API_KEY") := by
    unfold from_env
    rw [if_pos hcond]
  exact ⟨⟨_, herr⟩, by rw [mainStartup, herr]⟩

/-- Witness for C8 at the empty environment. -/
theorem missing_mandatory_config_aborts_witness :
    (∃ msg, from_env (fun _ => none) = Except.error msg) ∧
      mainStartup (fun _ => none) = MainOutcome.configError 1 :=
  missing_mandatory_config_aborts (fun _ => none) (Or.inl rfl)

end JellyfinSuggested

namespace JellyfinSuggested

/-! ### Stability and sortedness of the score sort -/

/-- Inserting a suggestion preserves the subsequence of any fixed score: the
elements skipped over before the insertion point all have strictly greater
score. -/
lemma filter_score_orderedInsert (s : ℚ) (x : Suggestion) :
    ∀ l : List Suggestion,
      (List.orderedInsert scoreGe x l).filter (fun a => decide (a.Score = s)) =
        if x.Score = s then x :: l.filter (fun a => decide (a.Score = s))
        else l.filter (fun a => decide (a.Score = s)) := by
  intro l
  induction l with
  | nil =>
    by_cases hx : x.Score = s <;> simp [List.orderedInsert, hx]
  | cons y ys ih =>
    by_cases hxy : scoreGe x y
    · by_cases hx : x.Score = s <;>
        by_cases hy : y.Score = s <;>
          simp [List.orderedInsert, hxy, List.filter_cons, hx, hy]
    · have hy_of_hx : x.Score = s → ¬ (y.Score = s) := by
        intro hx hy
        exact hxy (le_of_eq (hy.trans hx.symm))
      by_cases hx : x.Score = s
      · simp [List.orderedInsert, hxy, List.filter_cons, hy_of_hx hx, hx, ih]
      · by_cases hy : y.Score = s <;>
          simp [List.orderedInsert, hxy, List.filter_cons, hx, hy, ih]

/-- Stability of the score sort: for every score value, the subsequence of
suggestions carrying exactly that score is unchanged by the sort — tied
candidates keep the relative order in which they were inserted. -/
lemma filter_score_sortByScoreDesc (s : ℚ) (l : List Suggestion) :
    (sortByScoreDesc l).filter (fun a => decide (a.Score = s)) =
      l.filter (fun a => decide (a.Score = s)) := by
  induction l with
  | nil => rfl
  | cons x xs ih =>
    by_cases hx : x.Score = s <;>
      simp only [sortByScoreDesc, List.insertionSort] at ih ⊢ <;>
        rw [filter_score_orderedInsert] <;>
          simp [List.filter_cons, hx, ih]

/-! ### Claim C4 -/

/-- C4: the final suggestion list of `process_user` is ordered by score
non-ascending (`scoreGe` holds between every earlier and every later
element), and for every score value the tied candidates appear as a
subsequence of the working list `collectSuggestions` — i.e. in the relative
order in which they were first inserted, which by construction of
`collectSuggestions` is all movie-derived candidates first, per watched item
in history order, then per similar result in provider order, followed by the
series-derived candidates likewise. -/
theorem suggestions_sorted_and_ties_keep_insertion_order (cfg : Config)
    (mov ser : List WatchedItem) (mlib slib : Nat → Option LibraryItem)
    (rawM rawS : Nat → List RawSimilar) :
    List.Pairwise scoreGe (processUserSuggestions cfg mov ser mlib slib rawM rawS) ∧
    ∀ s : ℚ,
      ((processUserSuggestions cfg mov ser mlib slib rawM rawS).filter
          (fun a => decide (a.Score = s))).Sublist
        ((collectSuggestions cfg mov ser mlib slib rawM rawS).filter
          (fun a => decide (a.Score = s))) := by
  constructor
  · exact List.Pairwise.sublist (List.take_sublist _ _)
      (List.sorted_insertionSort scoreGe
        (collectSuggestions cfg mov ser mlib slib rawM rawS))
  · intro s
    have h1 : (processUserSuggestions cfg mov ser mlib slib rawM rawS).Sublist
        (sortByScoreDesc (collectSuggestions cfg mov ser mlib slib rawM rawS)) :=
      List.take_sublist _ _
    have h2 := List.Sublist.filter (fun a => decide (a.Score = s)) h1
    rwa [filter_score_sortByScoreDesc] at h2

end JellyfinSuggested

namespace JellyfinSuggested

/-! ### The dedup invariant of the working list -/

/-- One inner-loop step preserves distinctness of the server-local ids in the
working list: a new candidate is appended only after the explicit check that
its `Id` is not already present (src line 291 resp. 307). -/
lemma nodupIds_considerSimilar {w : List Nat} {lib : Nat → Option LibraryItem}
    {kind : String} {acc : List Suggestion} {s : SimilarResult}
    (h : (acc.map Suggestion.Id).Nodup) :
    ((considerSimilar w lib kind acc s).map Suggestion.Id).Nodup := by
  unfold considerSimilar
  split
  · split
    · split
      · exact h
      · rename_i hnew
        simp only [List.map_append, List.map_cons, List.map_nil, List.nodup_append]
        exact ⟨h, List.nodup_singleton _, List.disjoint_singleton.mpr hnew⟩
    · exact h
  · exact h

/-- The inner loop over one similarity response preserves the invariant. -/
lemma nodupIds_addCandidates {w : List Nat} {lib : Nat → Option LibraryItem}
    {kind : String} (sim : List SimilarResult) :
    ∀ acc : List Suggestion, (acc.map Suggestion.Id).Nodup →
      ((addCandidates w lib kind acc sim).map Suggestion.Id).Nodup := by
  induction sim with
  | nil => intro acc h; exact h
  | cons s rest ih =>
    intro acc h
    exact ih _ (nodupIds_considerSimilar h)

/-- The outer loop over a watched-item list preserves the invariant. -/
lemma nodupIds_foldl_considerWatched (cfg : Config) (w : List Nat)
    (lib : Nat → Option LibraryItem) (kind : String) (rawSim : Nat → List RawSimilar)
    (ws : List WatchedItem) :
    ∀ acc : List Suggestion, (acc.map Suggestion.Id).Nodup →
      ((ws.foldl (considerWatched cfg w lib kind rawSim) acc).map Suggestion.Id).Nodup := by
  induction ws with
  | nil => intro acc h; exact h
  | cons x xs ih =>
    intro acc h
    refine ih _ ?_
    unfold considerWatched
    split
    · exact nodupIds_addCandidates _ _ h
    · exact h

/-- The working list after both similarity loops has pairwise-distinct
server-local ids. -/
lemma nodupIds_collectSuggestions (cfg : Config) (mov ser : List WatchedItem)
    (mlib slib : Nat → Option LibraryItem) (rawM rawS : Nat → List RawSimilar) :
    ((collectSuggestions cfg mov ser mlib slib rawM rawS).map Suggestion.Id).Nodup := by
  unfold collectSuggestions collectKind
  apply nodupIds_foldl_considerWatched
  apply nodupIds_foldl_considerWatched
  simp

/-! ### Claim C3 -/

/-- C3: no two candidates in the final output of `process_user` share the
same server-local identifier, for any inputs — even if the same local item is
reachable via two different watched source items or two different catalog
ids, the working list receives it once, and the stable sort and truncation
keep the ids distinct. -/
theorem output_local_ids_nodup (cfg : Config) (mov ser : List WatchedItem)
    (mlib slib : Nat → Option LibraryItem) (rawM rawS : Nat → List RawSimilar) :
    ((processUserSuggestions cfg mov ser mlib slib rawM rawS).map Suggestion.Id).Nodup := by
  have hw := nodupIds_collectSuggestions cfg mov ser mlib slib rawM rawS
  have hperm : (sortByScoreDesc
        (collectSuggestions cfg mov ser mlib slib rawM rawS)).Perm
      (collectSuggestions cfg mov ser mlib slib rawM rawS) :=
    List.perm_insertionSort _ _
  have hs : ((sortByScoreDesc
      (collectSuggestions cfg mov ser mlib slib rawM rawS)).map Suggestion.Id).Nodup :=
    ((hperm.map Suggestion.Id).nodup_iff).mpr hw
  exact List.Nodup.sublist
    (List.Sublist.map Suggestion.Id (List.take_sublist _ _)) hs

/-! ### Provenance of working-list candidates -/

/-- Case analysis of one inner-loop step: it either keeps the working list or
appends exactly one candidate built from a similar result that is in the
library index and not among the watched ids. -/
lemma mem_considerSimilar {w : List Nat} {lib : Nat → Option LibraryItem}
    {kind : String} {acc : List Suggestion} {s : SimilarResult} {c : Suggestion}
    (h : c ∈ considerSimilar w lib kind acc s) :
    c ∈ acc ∨ ∃ item, lib s.id = some item ∧ s.id ∉ w ∧
      c = ⟨item.Id, item.Name, kind, s.vote_average⟩ := by
  unfold considerSimilar at h
  split at h
  · rename_i item hitem
    split at h
    · rename_i hw
      split at h
      · exact Or.inl h
      · rcases List.mem_append.mp h with h | h
        · exact Or.inl h
        · exact Or.inr ⟨item, hitem, hw, (List.mem_singleton.mp h)⟩
    · exact Or.inl h
  · exact Or.inl h

/-- Provenance through one similarity response. -/
lemma mem_addCandidates {w : List Nat} {lib : Nat → Option LibraryItem}
    {kind : String} {sim : List SimilarResult} :
    ∀ {acc : List Suggestion} {c : Suggestion}, c ∈ addCandidates w lib kind acc sim →
      c ∈ acc ∨ ∃ s ∈ sim, ∃ item, lib s.id = some item ∧ s.id ∉ w ∧
        c = ⟨item.Id, item.Name, kind, s.vote_average⟩ := by
  induction sim with
  | nil => intro acc c h; exact Or.inl h
  | cons s rest ih =>
    intro acc c h
    rcases ih h with h1 | ⟨s', hs', hprod⟩
    · rcases mem_considerSimilar h1 with h2 | ⟨item, hitem, hw, hc⟩
      · exact Or.inl h2
      · exact Or.inr ⟨s, List.mem_cons_self _ _, item, hitem, hw, hc⟩
    · exact Or.inr ⟨s', List.mem_cons_of_mem _ hs', hprod⟩

/-- Provenance through the outer loop over a watched-item list. -/
lemma mem_foldl_considerWatched {cfg : Config} {w : List Nat}
    {lib : Nat → Option LibraryItem} {kind : String} {rawSim : Nat → List RawSimilar}
    {ws : List WatchedItem} :
    ∀ {acc : List Suggestion} {c : Suggestion},
      c ∈ ws.foldl (considerWatched cfg w lib kind rawSim) acc →
      c ∈ acc ∨ ∃ t s, s ∈ tmdbGetSimilar cfg (rawSim t) ∧
        ∃ item, lib s.id = some item ∧ s.id ∉ w ∧
          c = ⟨item.Id, item.Name, kind, s.vote_average⟩ := by
  induction ws with
  | nil => intro acc c h; exact Or.inl h
  | cons x xs ih =>
    intro acc c h
    rcases ih h with h1 | hprod
    · unfold considerWatched at h1
      split at h1
      · rename_i t ht
        rcases mem_addCandidates h1 with h2 | ⟨s, hs, item, hitem, hw, hc⟩
        · exact Or.inl h2
        · exact Or.inr ⟨t, s, hs, item, hitem, hw, hc⟩
      · exact Or.inl h1
    · exact Or.inr hprod

/-- Provenance of every working-list candidate: it was built, in the loop of
its kind, from a similar result returned for some queried catalog id, whose
own catalog id is in the matching library index and outside the exclusion
set. -/
lemma mem_collectSuggestions {cfg : Config} {mov ser : List WatchedItem}
    {mlib slib : Nat → Option LibraryItem} {rawM rawS : Nat → List RawSimilar}
    {c : Suggestion} (h : c ∈ collectSuggestions cfg mov ser mlib slib rawM rawS) :
    (∃ t s, s ∈ tmdbGetSimilar cfg (rawM t) ∧ ∃ item, mlib s.id = some item ∧
       s.id ∉ watchedTmdbIds mov ser ∧
       c = ⟨item.Id, item.Name, "Movie", s.vote_average⟩) ∨
    (∃ t s, s ∈ tmdbGetSimilar cfg (rawS t) ∧ ∃ item, slib s.id = some item ∧
       s.id ∉ watchedTmdbIds mov ser ∧
       c = ⟨item.Id, item.Name, "Series", s.vote_average⟩) := by
  unfold collectSuggestions collectKind at h
  rcases mem_foldl_considerWatched h with h1 | hser
  · rcases mem_foldl_considerWatched h1 with h2 | hmov
    · simp at h2
    · exact Or.inl hmov
  · exact Or.inr hser

/-- Truncation and the stable sort only select from the working list. -/
lemma mem_processUserSuggestions {cfg : Config} {mov ser : List WatchedItem}
    {mlib slib : Nat → Option LibraryItem} {rawM rawS : Nat → List RawSimilar}
    {c : Suggestion} (h : c ∈ processUserSuggestions cfg mov ser mlib slib rawM rawS) :
    c ∈ collectSuggestions cfg mov ser mlib slib rawM rawS := by
  unfold processUserSuggestions at h
  exact (List.mem_insertionSort scoreGe).mp ((List.take_sublist _ _).subset h)

end JellyfinSuggested

namespace JellyfinSuggested

/-! ### Claim C2 -/

/-- C2: every candidate in the output of `process_user` was accepted via a
catalog (TMDB) id that is NOT in the exclusion set built from the watched
movies' and resolved watched series' catalog ids — the id under which the
matching library entry of the candidate's kind holds its server-local item.
Since the inner loop (src lines 289, 305) rejects any similar result whose
catalog id is in `watched_tmdb_ids`, no candidate reached through a watched
catalog id ever appears, regardless of which watched source item produced
it. -/
theorem watched_catalog_ids_never_suggested (cfg : Config)
    (mov ser : List WatchedItem) (mlib slib : Nat → Option LibraryItem)
    (rawM rawS : Nat → List RawSimilar) :
    ∀ c ∈ processUserSuggestions cfg mov ser mlib slib rawM rawS,
      ∃ catalogId, catalogId ∉ watchedTmdbIds mov ser ∧
        ∃ item,
          ((c.Kind = "Movie" ∧ mlib catalogId = some item) ∨
           (c.Kind = "Series" ∧ slib catalogId = some item)) ∧
          item.Id = c.Id ∧ item.Name = c.Name := by
  intro c hc
  rcases mem_collectSuggestions (mem_processUserSuggestions hc) with
    ⟨t, s, hs, item, hitem, hw, hc'⟩ | ⟨t, s, hs, item, hitem, hw, hc'⟩
  · exact ⟨s.id, hw, item, Or.inl ⟨by rw [hc'], hitem⟩, by rw [hc'], by rw [hc']⟩
  · exact ⟨s.id, hw, item, Or.inr ⟨by rw [hc'], hitem⟩, by rw [hc'], by rw [hc']⟩

/-- A default configuration for the concrete witness scenarios. -/
def witConfig : Config :=
  { jellyfin_url := "http://jf", jellyfin_api_key := "key", tmdb_api_key := "tk" }

/-- A movie library index holding catalog ids 1 and 3. -/
def witMovieLib : Nat → Option LibraryItem := fun t =>
  if t = 1 then some ⟨"A", "Alpha"⟩
  else if t = 3 then some ⟨"C", "Gamma"⟩
  else none

/-- A provider response for catalog id 100: one qualifying result, one
failing the rating threshold, one failing the vote threshold. -/
def witRawM : Nat → List RawSimilar := fun t =>
  if t = 100 then [⟨1, "A", 8, 200⟩, ⟨2, "B", 5, 200⟩, ⟨3, "C", 7, 10⟩] else []

/-- Witness for C2: one watched movie with catalog id 100 and the concrete
library/provider above; the single output candidate is exhibited with a
non-watched catalog id. -/
theorem watched_catalog_ids_never_suggested_witness :
    ∃ catalogId, catalogId ∉ watchedTmdbIds [⟨some 100⟩] [] ∧
      ∃ item,
        ((Suggestion.Kind ⟨"A", "Alpha", "Movie", 8⟩ = "Movie" ∧
            witMovieLib catalogId = some item) ∨
         (Suggestion.Kind ⟨"A", "Alpha", "Movie", 8⟩ = "Series" ∧
            (fun _ => (none : Option LibraryItem)) catalogId = some item)) ∧
        item.Id = Suggestion.Id ⟨"A", "Alpha", "Movie", 8⟩ ∧
        item.Name = Suggestion.Name ⟨"A", "Alpha", "Movie", 8⟩ :=
  watched_catalog_ids_never_suggested witConfig [⟨some 100⟩] []
    witMovieLib (fun _ => none) witRawM (fun _ => [])
    ⟨"A", "Alpha", "Movie", 8⟩ (by decide)

/-! ### Claim C6 -/

/-- C6: a similarity result becomes a candidate only if all three conditions
hold — the output never contains anything else: every output candidate of
`process_user` is backed by a raw provider result whose rating is at least
the configured minimum rating, whose vote count is at least the configured
minimum vote count, and whose catalog id is present in the library index of
the candidate's media kind; a result failing any one condition yields no
candidate. -/
theorem candidate_requires_rating_votes_and_library (cfg : Config)
    (mov ser : List WatchedItem) (mlib slib : Nat → Option LibraryItem)
    (rawM rawS : Nat → List RawSimilar) :
    ∀ c ∈ processUserSuggestions cfg mov ser mlib slib rawM rawS,
      ∃ t r item,
        ((c.Kind = "Movie" ∧ r ∈ rawM t ∧ mlib r.id = some item) ∨
         (c.Kind = "Series" ∧ r ∈ rawS t ∧ slib r.id = some item)) ∧
        cfg.min_tmdb_rating ≤ r.vote_average ∧
        cfg.min_tmdb_votes ≤ r.vote_count ∧
        item.Id = c.Id ∧ c.Score = r.vote_average := by
  intro c hc
  rcases mem_collectSuggestions (mem_processUserSuggestions hc) with
    ⟨t, s, hs, item, hitem, _, hc'⟩ | ⟨t, s, hs, item, hitem, _, hc'⟩
  · rcases mem_tmdbGetSimilar hs with ⟨r, hr, hrat, hvot, hsr⟩
    refine ⟨t, r, item, Or.inl ⟨by rw [hc'], hr, ?_⟩, hrat, hvot, by rw [hc'],
      by rw [hc', hsr]⟩
    · rw [← hitem, hsr]
  · rcases mem_tmdbGetSimilar hs with ⟨r, hr, hrat, hvot, hsr⟩
    refine ⟨t, r, item, Or.inr ⟨by rw [hc'], hr, ?_⟩, hrat, hvot, by rw [hc'],
      by rw [hc', hsr]⟩
    · rw [← hitem, hsr]

/-- Witness for C6 at the concrete scenario of the C2 witness: the single
output candidate is backed by the qualifying raw result with catalog id 1. -/
theorem candidate_requires_rating_votes_and_library_witness :
    ∃ t r item,
      ((Suggestion.Kind ⟨"A", "Alpha", "Movie", 8⟩ = "Movie" ∧ r ∈ witRawM t ∧
          witMovieLib r.id = some item) ∨
       (Suggestion.Kind ⟨"A", "Alpha", "Movie", 8⟩ = "Series" ∧
          r ∈ (fun _ => ([] : List RawSimilar)) t ∧
          (fun _ => (none : Option LibraryItem)) r.id = some item)) ∧
      witConfig.min_tmdb_rating ≤ r.vote_average ∧
      witConfig.min_tmdb_votes ≤ r.vote_count ∧
      item.Id = Suggestion.Id ⟨"A", "Alpha", "Movie", 8⟩ ∧
      Suggestion.Score ⟨"A", "Alpha", "Movie", 8⟩ = r.vote_average :=
  candidate_requires_rating_votes_and_library witConfig [⟨some 100⟩] []
    witMovieLib (fun _ => none) witRawM (fun _ => [])
    ⟨"A", "Alpha", "Movie", 8⟩ (by decide)

end JellyfinSuggested

namespace JellyfinSuggested

/-! ### Claim C9 -/

/-- A watched item without a catalog id contributes nothing to the exclusion
set built from the movie list. -/
lemma watchedTmdbIds_skip_none_mov {m : WatchedItem} (hm : m.tmdb = none)
    (pre post ser : List WatchedItem) :
    watchedTmdbIds (pre ++ m :: post) ser = watchedTmdbIds (pre ++ post) ser := by
  simp [watchedTmdbIds, List.filterMap_append, List.filterMap_cons, hm]

/-- A resolved series without a catalog id contributes nothing to the
exclusion set built from the series list. -/
lemma watchedTmdbIds_skip_none_ser {m : WatchedItem} (hm : m.tmdb = none)
    (mov pre post : List WatchedItem) :
    watchedTmdbIds mov (pre ++ m :: post) = watchedTmdbIds mov (pre ++ post) := by
  simp [watchedTmdbIds, List.filterMap_append, List.filterMap_cons, hm]

/-- A watched item without a catalog id triggers no similarity query (as long
as the list fits in the max-watched-items window). -/
lemma queriedTmdbIds_skip_none {cfg : Config} {m : WatchedItem} (hm : m.tmdb = none)
    (pre post : List WatchedItem)
    (hlen : (pre ++ m :: post).length ≤ cfg.max_watched_items) :
    queriedTmdbIds cfg (pre ++ m :: post) = queriedTmdbIds cfg (pre ++ post) := by
  have hlen2 : (pre ++ post).length ≤ cfg.max_watched_items := by
    simp only [List.length_append, List.length_cons] at hlen ⊢
    omega
  unfold queriedTmdbIds
  rw [List.take_of_length_le hlen, List.take_of_length_le hlen2]
  simp [List.filterMap_append, List.filterMap_cons, hm]

/-- A watched item without a catalog id is a no-op for a similarity loop. -/
lemma collectKind_skip_none (cfg : Config) (w : List Nat)
    (lib : Nat → Option LibraryItem) (kind : String) (rawSim : Nat → List RawSimilar)
    {m : WatchedItem} (hm : m.tmdb = none) (pre post : List WatchedItem)
    (hlen : (pre ++ m :: post).length ≤ cfg.max_watched_items)
    (acc : List Suggestion) :
    collectKind cfg w lib kind rawSim (pre ++ m :: post) acc =
      collectKind cfg w lib kind rawSim (pre ++ post) acc := by
  have hlen2 : (pre ++ post).length ≤ cfg.max_watched_items := by
    simp only [List.length_append, List.length_cons] at hlen ⊢
    omega
  unfold collectKind
  rw [List.take_of_length_le hlen, List.take_of_length_le hlen2,
    List.foldl_append, List.foldl_append, List.foldl_cons]
  congr 1
  simp [considerWatched, hm]

/-- C9: a watched movie, or a resolved watched series, whose metadata carries
no catalog (TMDB) id is silently skipped: it adds nothing to the exclusion
set, it is not among the catalog ids for which a similarity query is issued,
and the working suggestion list is exactly what it would be had the item not
been in the watched list at all — the surrounding items are processed
unchanged.  (The length bounds state that the watched lists fit in the
max-watched-items window, which `get_watched_items` guarantees upstream by
fetching with `limit = max_watched_items`, src line 91.) -/
theorem item_without_catalog_id_skipped (cfg : Config) (m : WatchedItem)
    (hm : m.tmdb = none) (preM postM preS postS mov ser : List WatchedItem)
    (mlib slib : Nat → Option LibraryItem) (rawM rawS : Nat → List RawSimilar)
    (hlenM : (preM ++ m :: postM).length ≤ cfg.max_watched_items)
    (hlenS : (preS ++ m :: postS).length ≤ cfg.max_watched_items) :
    (watchedTmdbIds (preM ++ m :: postM) ser = watchedTmdbIds (preM ++ postM) ser ∧
     queriedTmdbIds cfg (preM ++ m :: postM) = queriedTmdbIds cfg (preM ++ postM) ∧
     collectSuggestions cfg (preM ++ m :: postM) ser mlib slib rawM rawS =
       collectSuggestions cfg (preM ++ postM) ser mlib slib rawM rawS) ∧
    (watchedTmdbIds mov (preS ++ m :: postS) = watchedTmdbIds mov (preS ++ postS) ∧
     queriedTmdbIds cfg (preS ++ m :: postS) = queriedTmdbIds cfg (preS ++ postS) ∧
     collectSuggestions cfg mov (preS ++ m :: postS) mlib slib rawM rawS =
       collectSuggestions cfg mov (preS ++ postS) mlib slib rawM rawS) := by
  refine ⟨⟨watchedTmdbIds_skip_none_mov hm preM postM ser,
      queriedTmdbIds_skip_none hm preM postM hlenM, ?_⟩,
    ⟨watchedTmdbIds_skip_none_ser hm mov preS postS,
      queriedTmdbIds_skip_none hm preS postS hlenS, ?_⟩⟩
  · simp only [collectSuggestions]
    rw [watchedTmdbIds_skip_none_mov hm preM postM ser,
      collectKind_skip_none cfg _ mlib "Movie" rawM hm preM postM hlenM]
  · simp only [collectSuggestions]
    rw [watchedTmdbIds_skip_none_ser hm mov preS postS,
      collectKind_skip_none cfg _ slib "Series" rawS hm preS postS hlenS]

/-- Witness for C9: dropping a catalog-id-less watched movie from a concrete
watched list leaves the working suggestion list unchanged. -/
theorem item_without_catalog_id_skipped_witness :
    collectSuggestions witConfig ([⟨some 100⟩] ++ ⟨none⟩ :: []) []
        witMovieLib (fun _ => none) witRawM (fun _ => []) =
      collectSuggestions witConfig ([⟨some 100⟩] ++ []) []
        witMovieLib (fun _ => none) witRawM (fun _ => []) :=
  (item_without_catalog_id_skipped witConfig ⟨none⟩ rfl [⟨some 100⟩] [] [] [] [] []
    witMovieLib (fun _ => none) witRawM (fun _ => [])
    (by decide) (by decide)).1.2.2

/-! ### Claim C10 -/

/-- C10: when `update_playlist` finds an existing playlist with current
entries, the operation sequence it issues contains the append of the new item
ids unconditionally — the code discards `clear_playlist`'s boolean result
(src line 355) and always proceeds to `add_to_playlist` (src line 358).
Consequently, when the clear call fails and the append succeeds, the playlist
ends up holding its old entries followed by the new items — it is not left
empty. -/
theorem append_not_conditioned_on_clear (name : String)
    (playlists : List PlaylistInfo) (p : PlaylistInfo)
    (getEntries : String → List PlaylistEntry) (itemIds : List String)
    (ok : PlaylistOp → Bool) (newEntryId : String → String)
    (hfind : playlists.find? (fun q => q.Name == name) = some p)
    (hne : (getEntries p.Id).isEmpty = false)
    (hclear : ok (PlaylistOp.clear p.Id
      ((getEntries p.Id).map PlaylistEntry.PlaylistItemId)) = false)
    (hadd : ok (PlaylistOp.add p.Id itemIds) = true) :
    PlaylistOp.add p.Id itemIds ∈ updatePlaylistOps name playlists getEntries itemIds ∧
    applyOps ok newEntryId (getEntries p.Id)
        (updatePlaylistOps name playlists getEntries itemIds) =
      getEntries p.Id ++ itemIds.map (fun i => ⟨i, newEntryId i⟩) := by
  have hops : updatePlaylistOps name playlists getEntries itemIds =
      [PlaylistOp.clear p.Id ((getEntries p.Id).map PlaylistEntry.PlaylistItemId),
       PlaylistOp.add p.Id itemIds] := by
    unfold updatePlaylistOps
    rw [hfind]
    simp [hne]
  constructor
  · rw [hops]
    simp
  · rw [hops]
    unfold applyOps
    simp [List.foldl_cons, applyOp, hclear, hadd]

/-- Playlist listing for the C10 witness: one playlist with the configured
name. -/
def witPlaylists : List PlaylistInfo := [⟨"pl1", "Suggested For You"⟩]

/-- Current entries of the existing playlist for the C10 witness. -/
def witEntries : String → List PlaylistEntry := fun _ => [⟨"old1", "e1"⟩]

/-- Success oracle for the C10 witness: the clear call fails, everything else
succeeds. -/
def witOk : PlaylistOp → Bool := fun op =>
  match op with
  | PlaylistOp.clear _ _ => false
  | _ => true

/-- Witness for C10: with a failed clear and a successful append, the
playlist ends with the old entry followed by both new items. -/
theorem append_not_conditioned_on_clear_witness :
    PlaylistOp.add "pl1" ["n1", "n2"] ∈
      updatePlaylistOps "Suggested For You" witPlaylists witEntries ["n1", "n2"] ∧
    applyOps witOk (fun i => i ++ "-entry") (witEntries "pl1")
        (updatePlaylistOps "Suggested For You" witPlaylists witEntries ["n1", "n2"]) =
      witEntries "pl1" ++ (["n1", "n2"].map (fun i => ⟨i, i ++ "-entry"⟩)) :=
  append_not_conditioned_on_clear "Suggested For You" witPlaylists
    ⟨"pl1", "Suggested For You"⟩ witEntries ["n1", "n2"] witOk
    (fun i => i ++ "-entry") (by decide) (by decide) (by decide) (by decide)

end JellyfinSuggested
